import Mathlib

/-!
Verification of the document-intelligence Q&A pipeline: a shallow embedding of
src/document_processor.py, src/langraph_workflow.py and src/main.py, together
with theorems about the retrieval / relevance-assessment / answer-synthesis
workflow and the build phase.

External capabilities are opaque function parameters, exactly as the spec
treats them: the vector store similarity search (`search`), the chat model
(`llm`), the PDF text extraction performed with fitz (`ext`, where `none`
models a raised exception), and the recursive character text splitter
(`split`).  Observable external calls and console prints are collected in
explicit event traces so that statements of the form "stage X is (not)
invoked" are about the trace of the embedded code.
-/

namespace DocReader

/-- Python str.endswith, as a suffix check on the character lists of the two
strings (this is case-sensitive, exactly like the Python original). -/
def pyEndsWith (s suf : String) : Bool := suf.data.isSuffixOf s.data

/-- Python str.startswith, used in statements to talk about the leading tier
label of a confidence string. -/
def pyStartsWith (s pre : String) : Bool := pre.data.isPrefixOf s.data

/-- Truthiness of Python text.strip(): true when the string contains at least
one non-whitespace character. -/
def hasContent (s : String) : Bool := s.data.any (fun c => !c.isWhitespace)

/-- Python "sep".join(parts). -/
def pyJoin (sep : String) : List String → String
  | [] => ""
  | [a] => a
  | a :: b :: rest => a ++ sep ++ pyJoin sep (b :: rest)

/-- Metadata of a langchain Document as this code base uses it: the keys
read by doc.metadata.get are "source" and "file_path". -/
structure DocMetadata where
  source : Option String
  file_path : Option String
deriving DecidableEq

/-- langchain.schema.Document: page content plus metadata.  Chunks have the
same shape, as in the original code. -/
structure Document where
  page_content : String
  metadata : DocMetadata
deriving DecidableEq

/-- doc.metadata.get("source", "Unknown"), as written in both the relevance
analysis and the context construction of langraph_workflow.py. -/
def Document.sourceOrUnknown (d : Document) : String := d.metadata.source.getD "Unknown"

/-- WorkflowState (langraph_workflow.py lines 9-18): the state record that
flows through the query pipeline. -/
structure WorkflowState where
  question : String
  retrieved_docs : List Document
  answer : String
  confidence : String
  source_files : List String
deriving DecidableEq

/-- A formatted ChatPromptTemplate of generate_answer: a system message and a
human message with context and question substituted. -/
structure Prompt where
  system : String
  human : String
deriving DecidableEq

/-- The system message of the prompt template (langraph_workflow.py lines
102-109). -/
def systemMessage : String :=
  "You are an expert document analyst. Use the provided document context to answer the user\x27s question comprehensively.\n\nGuidelines:\n- Answer based only on the information in the provided documents\n- If the documents don\x27t contain enough information, say so clearly\n- Cite which documents you\x27re referencing\n- Provide specific details and examples when available\n- If there are conflicting information, mention it"

/-- The human message of the prompt template (langraph_workflow.py lines
111-116) with context and question substituted by format. -/
def humanMessage (context question : String) : String :=
  "Context from documents:\n" ++ context ++ "\n\nQuestion: " ++ question ++
    "\n\nPlease provide a detailed answer based on the document context."

/-- The prompt built by prompt_template.format(context, question). -/
def mkPrompt (context question : String) : Prompt :=
  { system := systemMessage, human := humanMessage context question }

/-- Observable external calls made by the query pipeline: the vector store
similarity search and the chat model invocation. -/
inductive QEvent where
  | searchCall (question : String) (k : Nat)
  | genCall (prompt : Prompt)
deriving DecidableEq

/-- retrieve_documents (langraph_workflow.py lines 53-64); search is the
opaque vectorstore.similarity_search, called with k = 4. -/
def retrieve_documents (search : String → Nat → List Document)
    (state : WorkflowState) : WorkflowState × List QEvent :=
  let relevant_docs := search state.question 4
  ({ state with retrieved_docs := relevant_docs },
   [QEvent.searchCall state.question 4])

/-- analyze_relevance (langraph_workflow.py lines 66-90).  The Python
expression list(set(...)) is modelled by List.dedup: the iteration order of a
Python set is unspecified, and membership plus uniqueness is all that is
preserved. -/
def analyze_relevance (state : WorkflowState) : WorkflowState × List QEvent :=
  let docs := state.retrieved_docs
  let source_files := (docs.map (fun d => d.sourceOrUnknown)).dedup
  let confidence :=
    if 3 ≤ docs.length then "High - Found multiple relevant sources"
    else if 1 ≤ docs.length then "Medium - Found some relevant information"
    else "Low - Limited relevant information found"
  ({ state with confidence := confidence, source_files := source_files }, [])

/-- The context string of generate_answer (langraph_workflow.py lines 96-99):
"\n\n".join of one entry per retrieved document. -/
def contextOf (docs : List Document) : String :=
  pyJoin "\n\n"
    (docs.map (fun d => "From " ++ d.sourceOrUnknown ++ ":\n" ++ d.page_content))

/-- generate_answer (langraph_workflow.py lines 92-128); llm is the opaque
self.llm.invoke followed by reading .content. -/
def generate_answer (llm : Prompt → String) (state : WorkflowState) :
    WorkflowState × List QEvent :=
  let context := contextOf state.retrieved_docs
  let prompt := mkPrompt context state.question
  let answer := llm prompt
  ({ state with answer := answer }, [QEvent.genCall prompt])

/-- The initial_state dict of process_question (langraph_workflow.py lines
139-145). -/
def initialState (question : String) : WorkflowState :=
  { question := question, retrieved_docs := [], answer := "",
    confidence := "", source_files := [] }

/-- The compiled LangGraph of _create_workflow: the fixed linear pipeline
retrieve_documents, then analyze_relevance, then generate_answer; traces are
accumulated in order. -/
def runWorkflow (search : String → Nat → List Document) (llm : Prompt → String)
    (state : WorkflowState) : WorkflowState × List QEvent :=
  let r1 := retrieve_documents search state
  let r2 := analyze_relevance r1.1
  let r3 := generate_answer llm r2.1
  (r3.1, r1.2 ++ r2.2 ++ r3.2)

/-- The result dict built by process_question (langraph_workflow.py lines
149-155); this structure has exactly the five keys of that dict. -/
structure QueryResult where
  question : String
  answer : String
  confidence : String
  source_files : List String
  num_sources : Nat
deriving DecidableEq

/-- process_question (langraph_workflow.py lines 130-155). -/
def process_question (search : String → Nat → List Document)
    (llm : Prompt → String) (question : String) : QueryResult × List QEvent :=
  let final_state := runWorkflow search llm (initialState question)
  ({ question := question,
     answer := final_state.1.answer,
     confidence := final_state.1.confidence,
     source_files := final_state.1.source_files,
     num_sources := final_state.1.retrieved_docs.length }, final_state.2)

/-- The capabilities a constructed DocumentIntelligenceWorkflow closes over. -/
structure Workflow where
  search : String → Nat → List Document
  llm : Prompt → String

/-- Query-side state of DocumentIntelligenceApp: self.workflow is None until
setup_documents succeeds, and main.py sets self.workflow and the ready flag
together, so the flag is true exactly when a workflow is present. -/
structure App where
  workflow : Option Workflow

/-- The readiness flag of main.py, true exactly when setup_documents has
installed a workflow; main.py stores it as a separate boolean that is set
together with self.workflow, never one without the other. -/
def App.initFlag (app : App) : Bool := app.workflow.isSome

/-- Result of ask_question: either the error dict or the Query Result dict. -/
inductive AskResult where
  | error (msg : String)
  | ok (result : QueryResult)
deriving DecidableEq

/-- ask_question (main.py lines 53-66), with the trace of external calls it
makes. -/
def ask_question (app : App) (question : String) : AskResult × List QEvent :=
  match app.workflow with
  | none =>
      (AskResult.error "System not in\x69tialized. Please run setup_documents() first.", [])
  | some w =>
      let r := process_question w.search w.llm question
      (AskResult.ok r.1, r.2)

/-- Observable effects of the build phase: console prints, PDF extraction
attempts, and the error report printed when extraction of one file fails. -/
inductive BEvent where
  | printMsg (msg : String)
  | extractCall (path : String)
  | extractErrorReport (path : String)
deriving DecidableEq

/-- extract_text_from_pdf (document_processor.py lines 25-48).  ext is the
opaque fitz page loop over one file: some text on success, none when opening
or reading the file raises, in which case the error is printed and the empty
string is returned. -/
def extract_text_from_pdf (ext : String → Option String) (pdf_path : String) :
    String × List BEvent :=
  match ext pdf_path with
  | some text => (text, [BEvent.extractCall pdf_path])
  | none => ("", [BEvent.extractCall pdf_path, BEvent.extractErrorReport pdf_path])

/-- The comprehension [f for f in os.listdir(folder) if f.endswith(".pdf")],
written identically in main.py line 34 and document_processor.py line 60. -/
def pdfFilter (files : List String) : List String :=
  files.filter (fun f => pyEndsWith f ".pdf")

/-- One iteration of the load_documents loop body (document_processor.py
lines 62-74): extract, then keep the document only when the text has
non-whitespace content. -/
def loadOne (ext : String → Option String) (documents_folder pdf_file : String) :
    Option Document × List BEvent :=
  let pdf_path := documents_folder ++ "/" ++ pdf_file
  let r := extract_text_from_pdf ext pdf_path
  ((if hasContent r.1 then
      some { page_content := r.1,
             metadata := { source := some pdf_file, file_path := some pdf_path } }
    else none), r.2)

/-- load_documents (document_processor.py lines 50-76); files is the
os.listdir(documents_folder) listing. -/
def load_documents (ext : String → Option String) (documents_folder : String)
    (files : List String) : List Document × List BEvent :=
  ((pdfFilter files).filterMap (fun f => (loadOne ext documents_folder f).1),
   (pdfFilter files).flatMap (fun f => (loadOne ext documents_folder f).2))

/-- setup_documents (main.py lines 24-51) combined with
process_all_documents and create_vector_database (document_processor.py
lines 78-112).  split is the opaque text splitter applied to one document;
fs is the folder listing (none when os.path.exists is false); store models
the persisted Chroma database as the flattened chunk list, passed through
unchanged on every failure path. -/
def setup_documents (split : Document → List Document)
    (ext : String → Option String) (fs : Option (List String))
    (documents_folder : String) (store : Option (List Document)) :
    Bool × List BEvent × Option (List Document) :=
  match fs with
  | none =>
      (false,
       [BEvent.printMsg ("Error: \x27" ++ documents_folder ++ "\x27 folder not found!")],
       store)
  | some files =>
      if pdfFilter files = [] then
        (false,
         [BEvent.printMsg ("Error: No PDF files found in \x27" ++ documents_folder ++ "\x27 folder!")],
         store)
      else
        if (load_documents ext documents_folder files).1 = [] then
          (false,
           (load_documents ext documents_folder files).2 ++
             [BEvent.printMsg "No documents found or processed!",
              BEvent.printMsg "Failed to in\x69tialize vector database"],
           store)
        else
          (true,
           (load_documents ext documents_folder files).2 ++
             [BEvent.printMsg "System In\x69tialized Successfully"],
           some ((load_documents ext documents_folder files).1.flatMap split))

/-- Sample document over the file A.pdf, for concrete evaluations. -/
def docA : Document :=
  { page_content := "alpha text",
    metadata := { source := some "A.pdf", file_path := some "documents/A.pdf" } }

/-- Second sample document over the same file A.pdf. -/
def docA2 : Document :=
  { page_content := "alpha more",
    metadata := { source := some "A.pdf", file_path := some "documents/A.pdf" } }

/-- Sample document over the file B.pdf. -/
def docB : Document :=
  { page_content := "beta text",
    metadata := { source := some "B.pdf", file_path := some "documents/B.pdf" } }

/-- A workflow state holding the given retrieved documents, for concrete
evaluations. -/
def stWith (docs : List Document) : WorkflowState :=
  { question := "q", retrieved_docs := docs, answer := "",
    confidence := "", source_files := [] }

/-- Sample extractor succeeding only on documents/good.pdf. -/
def extSample : String → Option String :=
  fun p => if p = "documents/good.pdf" then some "good text" else none

/-- Sample splitter producing one chunk per document. -/
def splitSample : Document → List Document := fun d => [d]

/-- The per-chunk context entry as the spec describes it: a header identifying
the source of the chunk, followed by the text of the chunk. -/
def specEntry (d : Document) : String :=
  "From " ++ d.sourceOrUnknown ++ ":\n" ++ d.page_content

/-- The synthesis context as the spec describes it, written from the words of
the spec as the refinement target for contextOf: the per-chunk entries are
concatenated in retrieval order, with a blank line (two newlines) between
adjacent entries. -/
def specContext : List Document → String
  | [] => ""
  | [d] => specEntry d
  | d :: d2 :: rest => specEntry d ++ "\n\n" ++ specContext (d2 :: rest)

/-- Helper: the confidence written by analyze_relevance is a function of the
number of retrieved documents alone. -/
theorem analyze_confidence_eq (st : WorkflowState) :
    (analyze_relevance st).1.confidence =
      if 3 ≤ st.retrieved_docs.length then "High - Found multiple relevant sources"
      else if 1 ≤ st.retrieved_docs.length then "Medium - Found some relevant information"
      else "Low - Limited relevant information found" := rfl

/-- Helper: the source files written by analyze_relevance are the deduplicated
source values of the retrieved documents. -/
theorem analyze_source_files_eq (st : WorkflowState) :
    (analyze_relevance st).1.source_files =
      (st.retrieved_docs.map (fun d => d.sourceOrUnknown)).dedup := rfl

/-- Helper: setup_documents on an existing folder with no recognized files
returns failure, prints the no-PDF message only, and passes the persisted
store through unchanged; the result does not depend on split or ext. -/
theorem setup_documents_no_pdfs (split : Document → List Document)
    (ext : String → Option String) (files : List String)
    (documents_folder : String) (store : Option (List Document))
    (h : pdfFilter files = []) :
    setup_documents split ext (some files) documents_folder store =
      (false,
       [BEvent.printMsg ("Error: No PDF files found in \x27" ++ documents_folder ++ "\x27 folder!")],
       store) := by
  simp [setup_documents, h]

/-- Helper: when the folder has recognized files and at least one document is
loaded, setup_documents succeeds and persists the flattened chunks. -/
theorem setup_documents_built (split : Document → List Document)
    (ext : String → Option String) (files : List String)
    (documents_folder : String) (store : Option (List Document))
    (h1 : pdfFilter files ≠ [])
    (h2 : (load_documents ext documents_folder files).1 ≠ []) :
    setup_documents split ext (some files) documents_folder store =
      (true,
       (load_documents ext documents_folder files).2 ++
         [BEvent.printMsg "System In\x69tialized Successfully"],
       some ((load_documents ext documents_folder files).1.flatMap split)) := by
  simp [setup_documents, h1, h2]

/-- Helper: every loaded document arises from a recognized file of the folder
whose extraction succeeded with non-whitespace text, and it carries that file
name as its source. -/
theorem mem_load_documents (ext : String → Option String)
    (documents_folder : String) (files : List String) (d : Document)
    (hd : d ∈ (load_documents ext documents_folder files).1) :
    ∃ g ∈ pdfFilter files, d.metadata.source = some g ∧
      ∃ t, ext (documents_folder ++ "/" ++ g) = some t ∧ hasContent t = true := by
  simp only [load_documents] at hd
  obtain ⟨g, hg, hopt⟩ := List.mem_filterMap.mp hd
  refine ⟨g, hg, ?_⟩
  cases hext : ext (documents_folder ++ "/" ++ g) with
  | none =>
    exfalso
    simp [loadOne, extract_text_from_pdf, hext,
      show hasContent "" = false from by decide] at hopt
  | some t =>
    simp only [loadOne, extract_text_from_pdf, hext] at hopt
    split at hopt
    next hc =>
      injection hopt with hdd
      exact ⟨by rw [← hdd], t, rfl, hc⟩
    next hc => exact Option.noConfusion hopt

/-- Helper: extraction is attempted on every recognized file of the folder. -/
theorem extract_attempted (ext : String → Option String)
    (documents_folder : String) (files : List String) (g : String)
    (hg : g ∈ pdfFilter files) :
    BEvent.extractCall (documents_folder ++ "/" ++ g) ∈
      (load_documents ext documents_folder files).2 := by
  simp only [load_documents]
  refine List.mem_flatMap.mpr ⟨g, hg, ?_⟩
  cases hext : ext (documents_folder ++ "/" ++ g) <;>
    simp [loadOne, extract_text_from_pdf, hext]

/-- Claim C1: the confidence produced by the relevance analysis is determined
solely by the length of the retrieved list, in three tiers: a length of at
least 3 yields the High label, a length of 1 or 2 yields the Medium label, and
length 0 yields the Low label.  The confidence string equals its tier label
followed by the fixed descriptive suffix of that tier. -/
theorem confidence_three_tiers (st : WorkflowState) :
    ((analyze_relevance st).1.confidence =
      if 3 ≤ st.retrieved_docs.length then "High - Found multiple relevant sources"
      else if 1 ≤ st.retrieved_docs.length then "Medium - Found some relevant information"
      else "Low - Limited relevant information found") ∧
    (∀ st2 : WorkflowState, st.retrieved_docs.length = st2.retrieved_docs.length →
      (analyze_relevance st).1.confidence = (analyze_relevance st2).1.confidence) ∧
    (3 ≤ st.retrieved_docs.length →
      pyStartsWith (analyze_relevance st).1.confidence "High" = true) ∧
    (1 ≤ st.retrieved_docs.length → st.retrieved_docs.length < 3 →
      pyStartsWith (analyze_relevance st).1.confidence "Medium" = true) ∧
    (st.retrieved_docs.length = 0 →
      pyStartsWith (analyze_relevance st).1.confidence "Low" = true) := by
  refine ⟨rfl, fun st2 h => ?_, fun h => ?_, fun h1 h2 => ?_, fun h => ?_⟩
  · rw [analyze_confidence_eq, analyze_confidence_eq, h]
  · rw [analyze_confidence_eq, if_pos h]; decide
  · rw [analyze_confidence_eq, if_neg (by omega), if_pos h1]; decide
  · rw [analyze_confidence_eq, if_neg (by omega), if_neg (by omega)]; decide

/-- Witness for C1: a three-element retrieved list yields the High tier. -/
theorem confidence_three_tiers_w :
    pyStartsWith (analyze_relevance (stWith [docA, docB, docA2])).1.confidence
      "High" = true :=
  (confidence_three_tiers (stWith [docA, docB, docA2])).2.2.1 (by decide)

/-- Claim C3: the source_files output of the relevance analysis contains each
distinct source value of the retrieved documents exactly once, as a finite
list: it has no duplicates, its members are exactly the source values of the
retrieved documents, each such value occurs in it exactly once, the empty
retrieved list gives the empty list, and two retrieved documents with equal
source values give a one-element list. -/
theorem source_files_deduplicated (st : WorkflowState) :
    (analyze_relevance st).1.source_files.Nodup ∧
    (∀ s : String, s ∈ (analyze_relevance st).1.source_files ↔
        s ∈ st.retrieved_docs.map (fun d => d.sourceOrUnknown)) ∧
    (∀ s : String, s ∈ st.retrieved_docs.map (fun d => d.sourceOrUnknown) →
        (analyze_relevance st).1.source_files.count s = 1) ∧
    (st.retrieved_docs = [] → (analyze_relevance st).1.source_files = []) ∧
    (∀ c1 c2 : Document, st.retrieved_docs = [c1, c2] →
        c1.sourceOrUnknown = c2.sourceOrUnknown →
        (analyze_relevance st).1.source_files.length = 1) := by
  refine ⟨?_, fun s => ?_, fun s hs => ?_, fun h => ?_, fun c1 c2 h12 hsrc => ?_⟩
  · rw [analyze_source_files_eq]; exact List.nodup_dedup _
  · rw [analyze_source_files_eq]; exact List.mem_dedup
  · rw [analyze_source_files_eq]
    exact List.count_eq_one_of_mem (List.nodup_dedup _) (List.mem_dedup.mpr hs)
  · rw [analyze_source_files_eq, h]; rfl
  · rw [analyze_source_files_eq, h12]
    simp [List.dedup_cons_of_mem, hsrc]

/-- Witness for C3: two retrieved documents over the same file A.pdf yield a
single source file entry. -/
theorem source_files_deduplicated_w :
    (analyze_relevance (stWith [docA, docA2])).1.source_files.length = 1 :=
  (source_files_deduplicated (stWith [docA, docA2])).2.2.2.2 docA docA2 rfl rfl

/-- Claim C2: invoking ask_question before a successful index build (the
readiness flag is false, that is, no workflow is installed) returns the
structured error result and produces an empty external-call trace: neither the
retrieval search nor the generator is invoked, and no Query Result is
produced. -/
theorem ask_question_not_ready (app : App) (q : String)
    (h : app.initFlag = false) :
    ask_question app q =
      (AskResult.error "System not in\x69tialized. Please run setup_documents() first.", []) := by
  cases happ : app.workflow with
  | none => simp [ask_question, happ]
  | some w =>
    exfalso
    rw [App.initFlag, happ] at h
    exact Bool.noConfusion h

/-- Witness for C2 on a fresh app with no workflow installed. -/
theorem ask_question_not_ready_w :
    ask_question { workflow := none } "What is covered?" =
      (AskResult.error "System not in\x69tialized. Please run setup_documents() first.", []) :=
  ask_question_not_ready { workflow := none } "What is covered?" rfl

/-- Claim C4: the result of process_question is the QueryResult record, whose
fields are exactly question, answer, confidence, source_files and num_sources;
its question equals the input question, its num_sources is the number of
retrieved documents in the final workflow state, and the remaining fields are
the corresponding fields of the final workflow state. -/
theorem query_result_fields (search : String → Nat → List Document)
    (llm : Prompt → String) (q : String) :
    (process_question search llm q).1.question = q ∧
    (process_question search llm q).1.num_sources =
      (runWorkflow search llm (initialState q)).1.retrieved_docs.length ∧
    (process_question search llm q).1.answer =
      (runWorkflow search llm (initialState q)).1.answer ∧
    (process_question search llm q).1.confidence =
      (runWorkflow search llm (initialState q)).1.confidence ∧
    (process_question search llm q).1.source_files =
      (runWorkflow search llm (initialState q)).1.source_files :=
  ⟨rfl, rfl, rfl, rfl, rfl⟩

/-- Claim C5: on an empty retrieved list, generate_answer still invokes the
generator exactly once, with the prompt whose context section is the empty
string, and writes the output of the generator into the answer field; it does
not short-circuit with a canned answer. -/
theorem generate_answer_empty_retrieval (llm : Prompt → String)
    (st : WorkflowState) (h : st.retrieved_docs = []) :
    generate_answer llm st =
      ({ st with answer := llm (mkPrompt "" st.question) },
       [QEvent.genCall (mkPrompt "" st.question)]) := by
  simp only [generate_answer, contextOf, h, List.map_nil, pyJoin]

/-- Witness for C5 with a concrete generator and an empty retrieved list. -/
theorem generate_answer_empty_retrieval_w :
    generate_answer (fun _ => "no info") (stWith []) =
      ({ stWith [] with answer := "no info" },
       [QEvent.genCall (mkPrompt "" (stWith []).question)]) :=
  generate_answer_empty_retrieval (fun _ => "no info") (stWith []) rfl

/-- Claim C6: the synthesis context equals the spec-side description: the
per-chunk entries, each a source header followed by the chunk text, are
concatenated in retrieval order with a blank line between adjacent entries. -/
theorem context_matches_spec (docs : List Document) :
    contextOf docs = specContext docs := by
  induction docs with
  | nil => rfl
  | cons d rest ih =>
    cases rest with
    | nil => rfl
    | cons d2 r2 =>
      rw [specContext, ← ih]
      rfl

/-- Claim C7: on an existing folder with zero recognized files, the build
entry point returns failure, leaves the previously persisted store untouched,
prints only the no-PDF message (in particular the trace has no extraction
event), and its outcome does not depend on the extractor or the splitter,
which are therefore never run. -/
theorem build_no_recognized_files (split : Document → List Document)
    (ext : String → Option String) (files : List String)
    (documents_folder : String) (store : Option (List Document))
    (h : pdfFilter files = []) :
    setup_documents split ext (some files) documents_folder store =
      (false,
       [BEvent.printMsg ("Error: No PDF files found in \x27" ++ documents_folder ++ "\x27 folder!")],
       store) ∧
    (∀ (split2 : Document → List Document) (ext2 : String → Option String),
        setup_documents split ext (some files) documents_folder store =
          setup_documents split2 ext2 (some files) documents_folder store) := by
  refine ⟨setup_documents_no_pdfs split ext files documents_folder store h,
    fun split2 ext2 => ?_⟩
  rw [setup_documents_no_pdfs split ext files documents_folder store h,
    setup_documents_no_pdfs split2 ext2 files documents_folder store h]

/-- Witness for C7 on a folder holding only unrecognized files, with a
previously persisted store. -/
theorem build_no_recognized_files_w :
    setup_documents splitSample extSample (some ["readme.txt", "notes.md"])
      "documents" (some [docA]) =
      (false,
       [BEvent.printMsg ("Error: No PDF files found in \x27" ++ "documents" ++ "\x27 folder!")],
       some [docA]) :=
  (build_no_recognized_files splitSample extSample ["readme.txt", "notes.md"]
      "documents" (some [docA]) (by decide)).1

/-- Claim C8: a per-document extraction failure is recovered locally: the
failing file contributes no document (hence no chunks), extraction is still
attempted on every recognized file, the skip is reported on the console, and
as long as at least one document was loaded the build still succeeds and
constructs the index from the loaded documents. -/
theorem extraction_failure_recovered (split : Document → List Document)
    (ext : String → Option String) (files : List String)
    (documents_folder : String) (store : Option (List Document)) (f : String)
    (hmem : f ∈ files) (hpdf : pyEndsWith f ".pdf" = true)
    (hfail : ext (documents_folder ++ "/" ++ f) = none)
    (hsome : (load_documents ext documents_folder files).1 ≠ []) :
    (∀ d ∈ (load_documents ext documents_folder files).1,
        d.metadata.source ≠ some f) ∧
    (∀ g ∈ files, pyEndsWith g ".pdf" = true →
        BEvent.extractCall (documents_folder ++ "/" ++ g) ∈
          (load_documents ext documents_folder files).2) ∧
    BEvent.extractErrorReport (documents_folder ++ "/" ++ f) ∈
      (load_documents ext documents_folder files).2 ∧
    setup_documents split ext (some files) documents_folder store =
      (true,
       (load_documents ext documents_folder files).2 ++
         [BEvent.printMsg "System In\x69tialized Successfully"],
       some ((load_documents ext documents_folder files).1.flatMap split)) := by
  have hfp : f ∈ pdfFilter files := List.mem_filter.mpr ⟨hmem, hpdf⟩
  refine ⟨fun d hd => ?_,
    fun g hgf hgp => extract_attempted _ _ _ _ (List.mem_filter.mpr ⟨hgf, hgp⟩),
    ?_,
    setup_documents_built _ _ _ _ _ (List.ne_nil_of_mem hfp) hsome⟩
  · obtain ⟨g, hg, hsrc, t, hext, hc⟩ := mem_load_documents _ _ _ _ hd
    rw [hsrc]
    intro heq
    obtain rfl : g = f := Option.some.inj heq
    rw [hfail] at hext
    exact Option.noConfusion hext
  · simp only [load_documents]
    refine List.mem_flatMap.mpr ⟨f, hfp, ?_⟩
    simp [loadOne, extract_text_from_pdf, hfail]

/-- Witness for C8: with bad.pdf failing extraction and good.pdf succeeding,
the skip of bad.pdf is reported in the build trace. -/
theorem extraction_failure_recovered_w :
    BEvent.extractErrorReport ("documents" ++ "/" ++ "bad.pdf") ∈
      (load_documents extSample "documents" ["bad.pdf", "good.pdf"]).2 :=
  (extraction_failure_recovered splitSample extSample ["bad.pdf", "good.pdf"]
      "documents" none "bad.pdf" (by decide) (by decide) (by decide)
      (by decide)).2.2.1

/-- Claim C10: document enumeration recognizes only names ending in the exact
lowercase suffix .pdf, so a file named A.PDF present in the folder is excluded
from the recognized-file list, never becomes a loaded document, and a folder
holding only A.PDF fails the build precheck with the no-PDF error. -/
theorem uppercase_extension_excluded (files : List String)
    (h : ("A.PDF" : String) ∈ files) :
    ("A.PDF" : String) ∉ pdfFilter files ∧
    (∀ (ext : String → Option String) (documents_folder : String) (d : Document),
        d ∈ (load_documents ext documents_folder files).1 →
        d.metadata.source ≠ some "A.PDF") ∧
    (∀ (split : Document → List Document) (ext : String → Option String)
        (documents_folder : String) (store : Option (List Document)),
        setup_documents split ext (some ["A.PDF"]) documents_folder store =
          (false,
           [BEvent.printMsg ("Error: No PDF files found in \x27" ++ documents_folder ++ "\x27 folder!")],
           store)) := by
  refine ⟨fun hmem => ?_, fun ext folder d hd => ?_,
    fun split ext folder store =>
      setup_documents_no_pdfs _ _ _ _ _ (by decide)⟩
  · exact absurd (List.mem_filter.mp hmem).2 (by decide)
  · obtain ⟨g, hg, hsrc, t, hext, hc⟩ := mem_load_documents _ _ _ _ hd
    rw [hsrc]
    intro heq
    obtain rfl : g = "A.PDF" := Option.some.inj heq
    exact absurd (List.mem_filter.mp hg).2 (by decide)

/-- Witness for C10 on a folder listing holding exactly A.PDF. -/
theorem uppercase_extension_excluded_w :
    ("A.PDF" : String) ∉ pdfFilter ["A.PDF"] :=
  (uppercase_extension_excluded ["A.PDF"] (by decide)).1

/-- Claim C9: each workflow-state field is written by exactly one stage.  The
retrieval stage writes retrieved_docs and preserves every other field; the
analysis stage writes confidence and source_files and preserves question,
retrieved_docs and answer; the generation stage writes answer and preserves
question, retrieved_docs, confidence and source_files; and the question of the
final state of a full run equals the input question. -/
theorem stage_field_ownership (search : String → Nat → List Document)
    (llm : Prompt → String) (st : WorkflowState) (q : String) :
    ((retrieve_documents search st).1.question = st.question ∧
     (retrieve_documents search st).1.answer = st.answer ∧
     (retrieve_documents search st).1.confidence = st.confidence ∧
     (retrieve_documents search st).1.source_files = st.source_files ∧
     (retrieve_documents search st).1.retrieved_docs = search st.question 4) ∧
    ((analyze_relevance st).1.question = st.question ∧
     (analyze_relevance st).1.retrieved_docs = st.retrieved_docs ∧
     (analyze_relevance st).1.answer = st.answer) ∧
    ((generate_answer llm st).1.question = st.question ∧
     (generate_answer llm st).1.retrieved_docs = st.retrieved_docs ∧
     (generate_answer llm st).1.confidence = st.confidence ∧
     (generate_answer llm st).1.source_files = st.source_files) ∧
    (runWorkflow search llm (initialState q)).1.question = q :=
  ⟨⟨rfl, rfl, rfl, rfl, rfl⟩, ⟨rfl, rfl, rfl⟩, ⟨rfl, rfl, rfl, rfl⟩, rfl⟩

end DocReader
